import Mathlib

/-!
# Telemetry settings controller (`pages/analytics.js`)

A shallow embedding of the AngularJS controller registered by
`webapps/frontend/ui/admin/client/scripts/pages/analytics.js`.

The controller is stateful JavaScript glue: it owns `$scope.form.enableUsage`
and `$scope.authorized`, calls `get` / `configure` on the telemetry resource and
pushes notifications.  The embedding passes the scope explicitly and records
every call on a collaborator in an effect log, in evaluation order.  A callback
yields an `Outcome`: the scope as the callback leaves it, the calls it made and
whether it returned or threw.  Mutations made before a throw stay in the scope,
as they do in JavaScript.
-/

namespace Analytics

/-! ## JavaScript values -/

/-- The JavaScript values the controller can meet.  Numbers are abstracted to
the integers plus `NaN`: the controller only ever tests a number for
truthiness.  An object is its list of own properties, looked up first match. -/
inductive JSValue where
  | undefined : JSValue
  | null : JSValue
  | bool (b : Bool) : JSValue
  | number (n : Int) : JSValue
  | nan : JSValue
  | string (s : String) : JSValue
  | object (fields : List (String × JSValue)) : JSValue

/-- The errors a property read can raise. -/
inductive JSError where
  | typeError : JSError
  deriving DecidableEq

/-- The abstract operation `ToBoolean`, written `!!v` or used by `if (v)`. -/
def toBoolean : JSValue → Bool
  | .undefined => false
  | .null => false
  | .bool b => b
  | .number n => n != 0
  | .nan => false
  | .string s => s != ""
  | .object _ => true

/-- The test `typeof v === 'boolean'`. -/
def JSValue.isBoolean : JSValue → Bool
  | .bool _ => true
  | _ => false

/-- Own-property lookup in an object's field list. -/
def lookupField : List (String × JSValue) → String → JSValue
  | [], _ => .undefined
  | (k, v) :: rest, key => if k == key then v else lookupField rest key

/-- The property read `v.key`.  Reading from `undefined` or `null` throws a
`TypeError`; an object yields its field or `undefined`; a primitive yields
`undefined` (the controller reads `message` and `enableTelemetry` only, which
no built-in prototype defines). -/
def getProp : JSValue → String → Except JSError JSValue
  | .undefined, _ => .error .typeError
  | .null, _ => .error .typeError
  | .object fields, key => .ok (lookupField fields key)
  | _, _ => .ok .undefined

/-! ## Scope, collaborators and effects -/

/-- The object `$scope.form`. -/
structure Form where
  enableUsage : JSValue

/-- The part of `$scope` the controller owns.  `authorized` is `undefined`
until the controller assigns it. -/
structure Scope where
  form : Form
  authorized : JSValue

/-- The argument of `Notifications.addError` / `Notifications.addMessage`. -/
structure Notification where
  status : String
  message : String

/-- The collaborator `$translate.instant(key, params)`; `none` stands for a call
with the key alone. -/
abbrev Translate := String → Option JSValue → String

/-- A call the controller makes on one of its collaborators. -/
inductive Effect where
  | resource (name : String) : Effect
  | get : Effect
  | configure (value : JSValue) : Effect
  | instant (key : String) (params : Option JSValue) : Effect
  | addError (n : Notification) : Effect
  | addMessage (n : Notification) : Effect

/-- How a function body ends. -/
inductive Completion where
  | normal : Completion
  | throw (e : JSError) : Completion
  deriving DecidableEq

/-- What running a piece of the controller leaves behind. -/
structure Outcome where
  scope : Scope
  effects : List Effect
  completion : Completion

/-! ## The controller -/

/-- The controller function body (lines 27-59): initialise the form, obtain the
telemetry resource and issue `get`.  The callback handed to `get` is
`getCallback`; `$scope.submit` is `submit`. -/
def Controller : Outcome :=
  { scope := { form := { enableUsage := .bool false }, authorized := .undefined }
    effects := [.resource "telemetry", .get]
    completion := .normal }

/-- The callback passed to `telemetryResource.get` (lines 31-47). -/
def getCallback (tr : Translate) (err res : JSValue) (s : Scope) : Outcome :=
  if toBoolean err then
    match getProp err "message" with
    | .error e => { scope := s, effects := [], completion := .throw e }
    | .ok msg =>
      let params : Option JSValue := some (.object [("msg", msg)])
      { scope := s
        effects :=
          [ .instant "ERROR" none
          , .instant "TELEMETRY_FETCH_CONFIGURATION_ERROR_MESSAGE" params
          , .addError
              { status := tr "ERROR" none
                message := tr "TELEMETRY_FETCH_CONFIGURATION_ERROR_MESSAGE" params } ]
        completion := .normal }
  else
    let s1 : Scope := { s with authorized := .bool true }
    match getProp res "enableTelemetry" with
    | .error e => { scope := s1, effects := [], completion := .throw e }
    | .ok v =>
      { scope := { s1 with form := { s1.form with enableUsage := v } }
        effects := []
        completion := .normal }

/-- The function `$scope.submit` (lines 49-58), up to the call of `configure`. -/
def submit (s : Scope) : Outcome :=
  { scope := s
    effects := [.configure (.bool (toBoolean s.form.enableUsage))]
    completion := .normal }

/-- The callback passed to `telemetryResource.configure` (lines 50-57). -/
def configureCallback (tr : Translate) (err : JSValue) (s : Scope) : Outcome :=
  if !toBoolean err then
    { scope := s
      effects :=
        [ .instant "TELEMETRY_SUCCESS_HEADING" none
        , .instant "TELEMETRY_SUCCESS" none
        , .addMessage
            { status := tr "TELEMETRY_SUCCESS_HEADING" none
              message := tr "TELEMETRY_SUCCESS" none } ]
      completion := .normal }
  else
    { scope := s, effects := [], completion := .normal }

/-! ## Event sequences -/

/-- The events that run controller code after construction: the two callbacks
and the user-triggered `submit`. -/
inductive Event where
  | getCallback (err res : JSValue) : Event
  | submit : Event
  | configureCallback (err : JSValue) : Event

/-- Run the controller code an event triggers. -/
def step (tr : Translate) (s : Scope) : Event → Outcome
  | .getCallback err res => getCallback tr err res s
  | .submit => submit s
  | .configureCallback err => configureCallback tr err s

/-- The scope after a sequence of events, oldest first.  The scope a callback
leaves behind is kept whether it returned or threw. -/
def run (tr : Translate) : Scope → List Event → Scope
  | s, [] => s
  | s, e :: rest => run tr (step tr s e).scope rest

/-- A `get` callback invoked with a falsy `err`. -/
def Event.isFetchSuccess : Event → Bool
  | .getCallback err _ => !toBoolean err
  | _ => false

/-- A `get` callback that, when it reaches the assignment of line 45, assigns a
boolean; every other event qualifies. -/
def Event.booleanConfig : Event → Bool
  | .getCallback err res =>
    toBoolean err ||
      (match getProp res "enableTelemetry" with
       | .ok v => v.isBoolean
       | .error _ => true)
  | _ => true

/-! ## Observations on effect logs -/

/-- The call `telemetryResource.get`. -/
def Effect.isGet : Effect → Bool
  | .get => true
  | _ => false

/-- The call `telemetryResource.configure`. -/
def Effect.isConfigure : Effect → Bool
  | .configure _ => true
  | _ => false

/-- The call `Notifications.addError`. -/
def Effect.isAddError : Effect → Bool
  | .addError _ => true
  | _ => false

/-- The call `Notifications.addMessage`. -/
def Effect.isAddMessage : Effect → Bool
  | .addMessage _ => true
  | _ => false

/-- The translation table with no entries: every key is rendered as itself. -/
def keyTranslate : Translate := fun key _ => key

/-! ## Shared lemmas -/

/-- A truthy value is neither `undefined` nor `null`, so reading a property of
it does not throw. -/
theorem getProp_ok_of_truthy (v : JSValue) (key : String) (h : toBoolean v = true) :
    ∃ w, getProp v key = .ok w := by
  cases v <;> simp [toBoolean] at h <;> simp [getProp]

/-- The `authorized` field after one event. -/
theorem step_authorized (tr : Translate) (s : Scope) (e : Event) :
    (step tr s e).scope.authorized
      = if e.isFetchSuccess then JSValue.bool true else s.authorized := by
  cases e with
  | getCallback err res =>
    cases h : toBoolean err
    · cases hr : getProp res "enableTelemetry" <;>
        simp [step, getCallback, Event.isFetchSuccess, h, hr]
    · obtain ⟨w, hw⟩ := getProp_ok_of_truthy err "message" h
      simp [step, getCallback, Event.isFetchSuccess, h, hw]
  | submit => simp [step, submit, Event.isFetchSuccess]
  | configureCallback err =>
    cases h : toBoolean err <;> simp [step, configureCallback, Event.isFetchSuccess, h]

/-- The `authorized` field after a sequence of events, from any scope. -/
theorem run_authorized (tr : Translate) (events : List Event) (s : Scope) :
    (run tr s events).authorized
      = if events.any Event.isFetchSuccess then JSValue.bool true else s.authorized := by
  induction events generalizing s with
  | nil => simp [run]
  | cons e rest ih =>
    rw [run, ih, step_authorized]
    cases he : e.isFetchSuccess <;> simp [he]

/-- Running a concatenation of event sequences is running them in turn. -/
theorem run_append (tr : Translate) (pre post : List Event) (s : Scope) :
    run tr s (pre ++ post) = run tr (run tr s pre) post := by
  induction pre generalizing s with
  | nil => simp [run]
  | cons e rest ih => simp [run, ih]

/-- One event whose fetched flag is a boolean keeps `form.enableUsage` boolean. -/
theorem step_enableUsage_isBoolean (tr : Translate) (s : Scope) (e : Event)
    (hs : s.form.enableUsage.isBoolean = true) (he : e.booleanConfig = true) :
    (step tr s e).scope.form.enableUsage.isBoolean = true := by
  cases e with
  | getCallback err res =>
    cases h : toBoolean err
    · cases hr : getProp res "enableTelemetry" with
      | error x => simpa [step, getCallback, h, hr] using hs
      | ok v =>
        have hv : v.isBoolean = true := by
          simpa [Event.booleanConfig, h, hr] using he
        simpa [step, getCallback, h, hr] using hv
    · obtain ⟨w, hw⟩ := getProp_ok_of_truthy err "message" h
      simpa [step, getCallback, h, hw] using hs
  | submit => simpa [step, submit] using hs
  | configureCallback err =>
    cases h : toBoolean err <;> simpa [step, configureCallback, h] using hs

/-! ## Claims -/

/-- C1: whatever value `form.enableUsage` holds when `submit` is invoked,
`submit` calls `configure` once, and its first argument is the boolean
`!!form.enableUsage`; the string `"1"` gives the boolean `true`. -/
theorem submit_configure_argument (s : Scope) :
    (submit s).effects = [Effect.configure (JSValue.bool (toBoolean s.form.enableUsage))]
    ∧ (JSValue.bool (toBoolean s.form.enableUsage)).isBoolean = true
    ∧ (submit { s with form := { enableUsage := JSValue.string "1" } }).effects
        = [Effect.configure (JSValue.bool true)] := by
  refine ⟨rfl, rfl, ?_⟩
  simp [submit, toBoolean]

/-- C2: when the `get` callback is invoked with a falsy `err` and a `res` whose
`enableTelemetry` reads as `v`, the callback returns with `authorized` equal to
`true` and `form.enableUsage` equal to `v`, of whatever type, and pushes no
notification. -/
theorem getCallback_success (tr : Translate) (err res : JSValue) (s : Scope) (v : JSValue)
    (herr : toBoolean err = false) (hres : getProp res "enableTelemetry" = .ok v) :
    (getCallback tr err res s).scope.authorized = JSValue.bool true
    ∧ (getCallback tr err res s).scope.form.enableUsage = v
    ∧ (getCallback tr err res s).effects = []
    ∧ (getCallback tr err res s).completion = Completion.normal := by
  simp [getCallback, herr, hres]

/-- Witness for C2: the fetched configuration `{enableTelemetry: true}` on a
fresh controller. -/
theorem getCallback_success_witness :
    (getCallback keyTranslate .undefined
        (.object [("enableTelemetry", .bool true)]) Controller.scope).scope.authorized
      = JSValue.bool true
    ∧ (getCallback keyTranslate .undefined
        (.object [("enableTelemetry", .bool true)]) Controller.scope).scope.form.enableUsage
      = JSValue.bool true
    ∧ (getCallback keyTranslate .undefined
        (.object [("enableTelemetry", .bool true)]) Controller.scope).effects = []
    ∧ (getCallback keyTranslate .undefined
        (.object [("enableTelemetry", .bool true)]) Controller.scope).completion
      = Completion.normal :=
  getCallback_success keyTranslate .undefined (.object [("enableTelemetry", .bool true)])
    Controller.scope (.bool true) rfl rfl

/-- C3: when the `get` callback is invoked with a truthy `err`, `err.message`
reads as some `msg` and the callback makes exactly three calls: the lookup of
`ERROR` without parameters, the lookup of
`TELEMETRY_FETCH_CONFIGURATION_ERROR_MESSAGE` with the parameter object
`{msg}`, and one `addError` carrying the two translations; it calls
`addMessage` never. -/
theorem getCallback_error_notification (tr : Translate) (err res : JSValue) (s : Scope)
    (herr : toBoolean err = true) :
    ∃ msg, getProp err "message" = .ok msg
      ∧ (getCallback tr err res s).effects =
          [ Effect.instant "ERROR" none
          , Effect.instant "TELEMETRY_FETCH_CONFIGURATION_ERROR_MESSAGE"
              (some (JSValue.object [("msg", msg)]))
          , Effect.addError
              { status := tr "ERROR" none
                message := tr "TELEMETRY_FETCH_CONFIGURATION_ERROR_MESSAGE"
                  (some (JSValue.object [("msg", msg)])) } ]
      ∧ (getCallback tr err res s).effects.countP Effect.isAddError = 1
      ∧ (getCallback tr err res s).effects.countP Effect.isAddMessage = 0 := by
  obtain ⟨w, hw⟩ := getProp_ok_of_truthy err "message" herr
  refine ⟨w, hw, ?_⟩
  simp [getCallback, herr, hw, Effect.isAddError, Effect.isAddMessage]

/-- Witness for C3: for `err = {message: "boom"}` the parameter object handed to
the translation is `{msg: "boom"}`. -/
theorem getCallback_error_notification_witness :
    toBoolean (.object [("message", .string "boom")]) = true
    ∧ (getCallback keyTranslate (.object [("message", .string "boom")]) .undefined
        Controller.scope).effects =
          [ Effect.instant "ERROR" none
          , Effect.instant "TELEMETRY_FETCH_CONFIGURATION_ERROR_MESSAGE"
              (some (JSValue.object [("msg", JSValue.string "boom")]))
          , Effect.addError
              { status := keyTranslate "ERROR" none
                message := keyTranslate "TELEMETRY_FETCH_CONFIGURATION_ERROR_MESSAGE"
                  (some (JSValue.object [("msg", JSValue.string "boom")])) } ] := by
  refine ⟨rfl, ?_⟩
  obtain ⟨msg, hmsg, heff, _⟩ :=
    getCallback_error_notification keyTranslate (.object [("message", .string "boom")])
      .undefined Controller.scope rfl
  have hboom : msg = JSValue.string "boom" := by
    have h2 : getProp (.object [("message", .string "boom")]) "message"
        = .ok (JSValue.string "boom") := rfl
    rw [h2] at hmsg
    injection hmsg with h3
    exact h3.symm
  rw [heff, hboom]

/-- C4: when the `get` callback is invoked with a truthy `err`, whatever `res`
is, it leaves the scope as it found it; on a freshly constructed controller
`form.enableUsage` is still `false` and `authorized` is still `undefined`. -/
theorem getCallback_error_frame (tr : Translate) (err res : JSValue) (s : Scope)
    (herr : toBoolean err = true) :
    (getCallback tr err res s).scope = s
    ∧ (getCallback tr err res Controller.scope).scope.form.enableUsage = JSValue.bool false
    ∧ (getCallback tr err res Controller.scope).scope.authorized = JSValue.undefined := by
  obtain ⟨w, hw⟩ := getProp_ok_of_truthy err "message" herr
  simp [getCallback, herr, hw, Controller]

/-- Witness for C4: the error `{message: "boom"}` together with a `res` that
carries `enableTelemetry: true`. -/
theorem getCallback_error_frame_witness :
    toBoolean (.object [("message", .string "boom")]) = true
    ∧ (getCallback keyTranslate (.object [("message", .string "boom")])
        (.object [("enableTelemetry", .bool true)]) Controller.scope).scope = Controller.scope
    ∧ (getCallback keyTranslate (.object [("message", .string "boom")])
        (.object [("enableTelemetry", .bool true)]) Controller.scope).scope.form.enableUsage
      = JSValue.bool false
    ∧ (getCallback keyTranslate (.object [("message", .string "boom")])
        (.object [("enableTelemetry", .bool true)]) Controller.scope).scope.authorized
      = JSValue.undefined :=
  ⟨rfl, getCallback_error_frame keyTranslate (.object [("message", .string "boom")])
    (.object [("enableTelemetry", .bool true)]) Controller.scope rfl⟩

/-- C5: when the `configure` callback is invoked with a falsy `err`, it looks up
`TELEMETRY_SUCCESS_HEADING` and `TELEMETRY_SUCCESS`, both without parameters,
and pushes exactly one `addMessage` carrying the two translations as status and
message; it calls `addError` never. -/
theorem configureCallback_success_notification (tr : Translate) (err : JSValue) (s : Scope)
    (herr : toBoolean err = false) :
    (configureCallback tr err s).effects =
        [ Effect.instant "TELEMETRY_SUCCESS_HEADING" none
        , Effect.instant "TELEMETRY_SUCCESS" none
        , Effect.addMessage
            { status := tr "TELEMETRY_SUCCESS_HEADING" none
              message := tr "TELEMETRY_SUCCESS" none } ]
    ∧ (configureCallback tr err s).effects.countP Effect.isAddMessage = 1
    ∧ (configureCallback tr err s).effects.countP Effect.isAddError = 0 := by
  simp [configureCallback, herr, Effect.isAddError, Effect.isAddMessage]

/-- Witness for C5: the `configure` callback invoked with `null`. -/
theorem configureCallback_success_notification_witness :
    toBoolean .null = false
    ∧ (configureCallback keyTranslate .null Controller.scope).effects =
        [ Effect.instant "TELEMETRY_SUCCESS_HEADING" none
        , Effect.instant "TELEMETRY_SUCCESS" none
        , Effect.addMessage
            { status := keyTranslate "TELEMETRY_SUCCESS_HEADING" none
              message := keyTranslate "TELEMETRY_SUCCESS" none } ]
    ∧ (configureCallback keyTranslate .null Controller.scope).effects.countP
        Effect.isAddMessage = 1
    ∧ (configureCallback keyTranslate .null Controller.scope).effects.countP
        Effect.isAddError = 0 :=
  ⟨rfl, configureCallback_success_notification keyTranslate .null Controller.scope rfl⟩

/-- C6: when the `configure` callback is invoked with a truthy `err`, it calls
no collaborator at all, so neither `addError` nor `addMessage`, and it leaves
the scope as it found it. -/
theorem configureCallback_error_silent (tr : Translate) (err : JSValue) (s : Scope)
    (herr : toBoolean err = true) :
    (configureCallback tr err s).effects = []
    ∧ (configureCallback tr err s).effects.countP Effect.isAddError = 0
    ∧ (configureCallback tr err s).effects.countP Effect.isAddMessage = 0
    ∧ (configureCallback tr err s).scope = s := by
  simp [configureCallback, herr]

/-- Witness for C6: the `configure` callback invoked with `{message: "boom"}`. -/
theorem configureCallback_error_silent_witness :
    toBoolean (.object [("message", .string "boom")]) = true
    ∧ (configureCallback keyTranslate (.object [("message", .string "boom")])
        Controller.scope).effects = []
    ∧ (configureCallback keyTranslate (.object [("message", .string "boom")])
        Controller.scope).effects.countP Effect.isAddError = 0
    ∧ (configureCallback keyTranslate (.object [("message", .string "boom")])
        Controller.scope).effects.countP Effect.isAddMessage = 0
    ∧ (configureCallback keyTranslate (.object [("message", .string "boom")])
        Controller.scope).scope = Controller.scope :=
  ⟨rfl, configureCallback_error_silent keyTranslate (.object [("message", .string "boom")])
    Controller.scope rfl⟩

/-- C7, as stated, fails: invoked with a falsy `err` and an `undefined` `res`,
the `get` callback throws a `TypeError` from the read `res.enableTelemetry`. -/
theorem getCallback_throws_on_undefined_res :
    (getCallback keyTranslate .null .undefined Controller.scope).completion
      = Completion.throw JSError.typeError := by
  decide

/-- C7, amended: the `get` callback returns normally whenever `err` is truthy
(with or without a `message` field, whatever `res` is) or `res` is neither
`undefined` nor `null`; the `configure` callback returns normally for every
`err`. -/
theorem callbacks_return_normally (tr : Translate) (err res cerr : JSValue) (s cs : Scope)
    (h : toBoolean err = true ∨ (res ≠ JSValue.undefined ∧ res ≠ JSValue.null)) :
    (getCallback tr err res s).completion = Completion.normal
    ∧ (configureCallback tr cerr cs).completion = Completion.normal := by
  constructor
  · cases herr : toBoolean err
    · rcases h with h | ⟨h1, h2⟩
      · simp [herr] at h
      · cases res <;> simp_all [getCallback, getProp]
    · obtain ⟨w, hw⟩ := getProp_ok_of_truthy err "message" herr
      simp [getCallback, herr, hw]
  · cases hc : toBoolean cerr <;> simp [configureCallback, hc]

/-- Witness for C7: a truthy `err` that has no `message` field, together with an
`undefined` `res`; the `configure` callback is invoked with the same `err`. -/
theorem callbacks_return_normally_witness :
    (toBoolean (.string "timeout") = true
      ∨ (JSValue.undefined ≠ JSValue.undefined ∧ JSValue.undefined ≠ JSValue.null))
    ∧ (getCallback keyTranslate (.string "timeout") .undefined Controller.scope).completion
        = Completion.normal
    ∧ (configureCallback keyTranslate (.string "timeout") Controller.scope).completion
        = Completion.normal :=
  ⟨Or.inl rfl,
    callbacks_return_normally keyTranslate (.string "timeout") .undefined (.string "timeout")
      Controller.scope Controller.scope (Or.inl rfl)⟩

/-- C8: after any sequence of events on a fresh controller, `authorized` is
`true` exactly when the sequence holds a `get` callback invoked with a falsy
`err`, and is `undefined` otherwise; once it is `true`, it is still `true`
after any further events. -/
theorem authorized_one_way (tr : Translate) (events later : List Event) :
    ((run tr Controller.scope events).authorized = JSValue.bool true
      ↔ events.any Event.isFetchSuccess = true)
    ∧ ((run tr Controller.scope events).authorized = JSValue.undefined
      ↔ events.any Event.isFetchSuccess = false)
    ∧ ((run tr Controller.scope events).authorized = JSValue.bool true →
        (run tr Controller.scope (events ++ later)).authorized = JSValue.bool true) := by
  refine ⟨?_, ?_, ?_⟩
  · rw [run_authorized]
    cases h : events.any Event.isFetchSuccess <;> simp [Controller]
  · rw [run_authorized]
    cases h : events.any Event.isFetchSuccess <;> simp [Controller]
  · intro h
    rw [run_append, run_authorized, h]
    simp

/-- Witness for C8: a failed fetch leaves `authorized` unset, a later successful
one sets it, and a failing `configure` callback after a `submit` keeps it. -/
theorem authorized_one_way_witness :
    (run keyTranslate Controller.scope
        [.getCallback (.string "boom") .undefined]).authorized = JSValue.undefined
    ∧ (run keyTranslate Controller.scope
        [.getCallback (.string "boom") .undefined,
         .getCallback .null (.object [("enableTelemetry", .bool false)])]).authorized
      = JSValue.bool true
    ∧ (run keyTranslate Controller.scope
        ([.getCallback (.string "boom") .undefined,
          .getCallback .null (.object [("enableTelemetry", .bool false)])]
          ++ [.submit, .configureCallback (.string "boom")])).authorized
      = JSValue.bool true :=
  ⟨((authorized_one_way keyTranslate [.getCallback (.string "boom") .undefined] []).2.1).2 rfl,
   ((authorized_one_way keyTranslate
      [.getCallback (.string "boom") .undefined,
       .getCallback .null (.object [("enableTelemetry", .bool false)])] []).1).2 rfl,
   (authorized_one_way keyTranslate
      [.getCallback (.string "boom") .undefined,
       .getCallback .null (.object [("enableTelemetry", .bool false)])]
      [.submit, .configureCallback (.string "boom")]).2.2 rfl⟩

/-- C9, as stated, fails: after a `get` callback with a falsy `err` and
`res = {enableTelemetry: "1"}`, `form.enableUsage` holds the string `"1"`. -/
theorem enableUsage_not_always_boolean :
    (run keyTranslate Controller.scope
        [.getCallback .null (.object [("enableTelemetry", .string "1")])]
      ).form.enableUsage.isBoolean = false := by
  decide

/-- C9, amended: after construction and after any sequence of events in which
every `get` callback that reaches the assignment of `form.enableUsage` carries a
boolean `res.enableTelemetry`, `form.enableUsage` is a boolean. -/
theorem enableUsage_boolean_of_boolean_config (tr : Translate) (events : List Event)
    (h : ∀ e ∈ events, e.booleanConfig = true) :
    (run tr Controller.scope events).form.enableUsage.isBoolean = true := by
  have key : ∀ (evs : List Event) (s : Scope), s.form.enableUsage.isBoolean = true →
      (∀ e ∈ evs, e.booleanConfig = true) →
      (run tr s evs).form.enableUsage.isBoolean = true := by
    intro evs
    induction evs with
    | nil => intro s hs _; simpa [run] using hs
    | cons e rest ih =>
      intro s hs hall
      rw [run]
      exact ih _ (step_enableUsage_isBoolean tr s e hs (hall e (List.mem_cons_self e rest)))
        (fun x hx => hall x (List.mem_cons_of_mem e hx))
  exact key events Controller.scope rfl h

/-- Witness for C9: a failed fetch, a fetch of `{enableTelemetry: true}`, a
`submit` and its successful callback. -/
theorem enableUsage_boolean_of_boolean_config_witness :
    (run keyTranslate Controller.scope
        [.getCallback (.string "boom") (.object [("enableTelemetry", .string "1")]),
         .getCallback .null (.object [("enableTelemetry", .bool true)]),
         .submit, .configureCallback .null]).form.enableUsage.isBoolean = true :=
  enableUsage_boolean_of_boolean_config keyTranslate
    [.getCallback (.string "boom") (.object [("enableTelemetry", .string "1")]),
     .getCallback .null (.object [("enableTelemetry", .bool true)]),
     .submit, .configureCallback .null]
    (by
      intro e he
      simp only [List.mem_cons, List.mem_singleton, List.not_mem_nil, or_false] at he
      rcases he with rfl | rfl | rfl | rfl <;> rfl)

/-- C10: constructing the controller calls `get` exactly once and `configure`
never; the `get` callback calls neither, whatever it is invoked with; each
`submit` calls `configure` exactly once and `get` never; the `configure`
callback calls neither. -/
theorem outbound_calls (tr : Translate) (err res : JSValue) (s : Scope) :
    Controller.effects.countP Effect.isGet = 1
    ∧ Controller.effects.countP Effect.isConfigure = 0
    ∧ (getCallback tr err res s).effects.countP Effect.isGet = 0
    ∧ (getCallback tr err res s).effects.countP Effect.isConfigure = 0
    ∧ (submit s).effects.countP Effect.isConfigure = 1
    ∧ (submit s).effects.countP Effect.isGet = 0
    ∧ (configureCallback tr err s).effects.countP Effect.isGet = 0
    ∧ (configureCallback tr err s).effects.countP Effect.isConfigure = 0 := by
  have hget : (getCallback tr err res s).effects.countP Effect.isGet = 0
      ∧ (getCallback tr err res s).effects.countP Effect.isConfigure = 0 := by
    cases herr : toBoolean err
    · cases hr : getProp res "enableTelemetry" <;> simp [getCallback, herr, hr]
    · obtain ⟨w, hw⟩ := getProp_ok_of_truthy err "message" herr
      simp [getCallback, herr, hw, Effect.isGet, Effect.isConfigure]
  have hconf : (configureCallback tr err s).effects.countP Effect.isGet = 0
      ∧ (configureCallback tr err s).effects.countP Effect.isConfigure = 0 := by
    cases herr : toBoolean err <;>
      simp [configureCallback, herr, Effect.isGet, Effect.isConfigure]
  refine ⟨?_, ?_, hget.1, hget.2, ?_, ?_, hconf.1, hconf.2⟩ <;>
    simp [Controller, submit, Effect.isGet, Effect.isConfigure]

end Analytics
